import Mathlib

/-!
Verification development for the admin-ui repository.

Shallow embedding of the identity resolver (lib/identity), the snooze store
adapter (lib/snooze), the ai-state mutation handler, the conversations list
handler and the conversation-history handler, together with theorems settling
the specification claims.

Modelling conventions:
* Clock instants (JS `Date.now()`, Firestore `Timestamp` converted via
  `toDate()`) are integer milliseconds.  The ISO-8601
  serialization performed on the read path is injective on instants, so an
  `Option Int` stands for the serialized `string | null` field.
* A Firestore document field that may be absent or of the wrong runtime type
  is an `Option` of the modelled type (`typeof x === "number"` checks and
  `x?.toDate` guards become `Option` matches).
* The JavaScript string primitives used by the source (`trim`, `endsWith`,
  `slice(0, -n)`, `includes`, `split`, `join`) are embedded as executable
  functions on the character list of a Lean `String`, mirroring their JS
  semantics character by character.
* The JavaScript truthiness coercion `v || dflt` on string-or-absent values
  maps both the absent value and the empty string to the default; it is
  embedded as `jsStringOr` / `jsStringOrNull`.
* The snooze collection is an association list from document id to document;
  `set(payload, merge:true)` writes every modelled field in both branches of
  the source, so it amounts to a full replacement of the modelled record.
* The best-effort cleanup delete (`docRef.delete().catch(() => undefined)`) is
  modelled by a `cleanupDeleteSucceeds` parameter: when the delete fails the
  store is unchanged and execution continues normally, exactly as the
  swallowed rejection behaves.
-/

namespace AdminUI

/-! ## JavaScript string primitives, modelled on the character list -/

/-- JS `String.prototype.trim`: drop leading and trailing whitespace. -/
def jsTrim (s : String) : String :=
  ⟨((s.data.dropWhile Char.isWhitespace).reverse.dropWhile Char.isWhitespace).reverse⟩

/-- JS `String.prototype.endsWith(t)`. -/
def jsEndsWith (s t : String) : Bool :=
  t.data.isSuffixOf s.data

/-- JS `String.prototype.slice(0, -n)` (for `n ≤ length`, which is the only
use in the source: stripping a suffix just tested with `endsWith`). -/
def jsDropRight (s : String) (n : Nat) : String :=
  ⟨s.data.take (s.data.length - n)⟩

/-- JS `String.prototype.includes(c)` for a single-character needle. -/
def jsContainsChar (s : String) (c : Char) : Bool :=
  s.data.contains c

/-- JS `String.prototype.split(c)` for a single-character separator, on
character lists: `split c "abc:" = ["abc", ""]`, `split c "" = [""]`. -/
def jsSplitCharList (c : Char) : List Char → List (List Char)
  | [] => [[]]
  | x :: xs =>
    let r := jsSplitCharList c xs
    if x = c then [] :: r
    else
      match r with
      | [] => [[x]]
      | y :: ys => (x :: y) :: ys

/-- JS `String.prototype.split(c)` for a single-character separator. -/
def jsSplitChar (s : String) (c : Char) : List String :=
  (jsSplitCharList c s.data).map (fun l => ⟨l⟩)

/-- JS `Array.prototype.join(sep)`. -/
def jsJoin (sep : String) : List String → String
  | [] => ""
  | [x] => x
  | x :: y :: ys => x ++ sep ++ jsJoin sep (y :: ys)

/-- JS truthiness coercion `v || dflt` for a string-or-absent value: the
absent value and the empty string are falsy and yield the default. -/
def jsStringOr (v : Option String) (dflt : String) : String :=
  match v with
  | some s => if s = "" then dflt else s
  | none => dflt

/-- JS truthiness coercion `v || null` for a string-or-absent value. -/
def jsStringOrNull (v : Option String) : Option String :=
  match v with
  | some s => if s = "" then none else some s
  | none => none

/-! ## Identity resolver (src/unnamed/part_002, lib/identity) -/

def WHATSAPP_SUFFIX : String := "@c.us"

structure SenderIdentity where
  docId : String
  channel : String
  platformId : Option String
  normalizedAddress : String
deriving DecidableEq, Repr

/-- Embedding of `parseSenderIdentity(rawValue: string | null | undefined)`.
`none` stands for a `null`/`undefined` argument; `rawValue || ''` maps it to
the empty string before trimming. -/
def parseSenderIdentity (rawValue : Option String) : SenderIdentity :=
  let trimmed := jsTrim (rawValue.getD "")
  if trimmed = "" then
    { docId := "", channel := "unknown", platformId := none, normalizedAddress := "" }
  else
    let hasWhatsappSuffix := jsEndsWith trimmed WHATSAPP_SUFFIX
    let baseId := if hasWhatsappSuffix then jsDropRight trimmed WHATSAPP_SUFFIX.length else trimmed
    let cp : String × Option String :=
      if jsContainsChar baseId ':' then
        match jsSplitChar baseId ':' with
        | [] => ("unknown", none)
        | channelPart :: rest =>
          ( if channelPart = "" then "unknown" else channelPart
          , if rest.length ≠ 0 then some (jsJoin ":" rest) else none )
      else
        ("whatsapp", some baseId)
    let channel := cp.1
    let platformId := cp.2
    let normalizedAddress :=
      if channel = "whatsapp" then baseId ++ WHATSAPP_SUFFIX else baseId
    { docId := baseId, channel := channel, platformId := platformId
    , normalizedAddress := normalizedAddress }

/-- Embedding of `normalizeSenderNumber(value)`:
`parseSenderIdentity(value).normalizedAddress || value`. -/
def normalizeSenderNumber (value : String) : String :=
  let n := (parseSenderIdentity (some value)).normalizedAddress
  if n = "" then value else n

/-! ## Snooze store adapter (src/unnamed/part_000, lib/snooze) -/

/-- A stored document of the `handoverSnoozes` collection, restricted to the
fields the adapter reads.  `manual` is the `Boolean(data.manual)` coercion of
the stored value; `durationMinutes` is `some` exactly when the stored field is
a number (`typeof data.durationMinutes === "number"`); `expiresAt`,
`createdAt`, `updatedAt` are `some` exactly when the stored field carries a
`toDate` method (a Firestore `Timestamp`); `reason` is `some` when the field
is a string (possibly empty). -/
structure SnoozeDoc where
  manual : Bool
  durationMinutes : Option Int
  expiresAt : Option Int
  reason : Option String
  createdAt : Option Int
  updatedAt : Option Int
deriving DecidableEq, Repr

/-- The `handoverSnoozes` collection: an association list from document id to
document (at most one binding per id is ever produced by the operations). -/
abbrev Store := List (String × SnoozeDoc)

/-- Document lookup (`docRef.get()` on the id). -/
def lookupDoc : Store → String → Option SnoozeDoc
  | [], _ => none
  | (k, d) :: rest, key => if k = key then some d else lookupDoc rest key

/-- Document deletion (`docRef.delete()` on the id). -/
def eraseDoc : Store → String → Store
  | [], _ => []
  | (k, d) :: rest, key =>
    if k = key then eraseDoc rest key else (k, d) :: eraseDoc rest key

/-- Document write.  The payload of `setSnoozeMode` sets every modelled field
in both of its branches, so the `merge: true` write amounts to replacing the
modelled record. -/
def setDoc (s : Store) (key : String) (d : SnoozeDoc) : Store :=
  (key, d) :: eraseDoc s key

/-- The read-path response shape.  `expiresAt`, `createdAt`, `updatedAt` stand
for the ISO-8601 serialization of the instant (injective), `none` for `null`. -/
structure SnoozeInfo where
  active : Bool
  manual : Bool
  durationMinutes : Option Int
  expiresAt : Option Int
  reason : Option String
  createdAt : Option Int
  updatedAt : Option Int
deriving DecidableEq, Repr

/-- The clamp
`typeof durationMinutes === "number" && durationMinutes > 0 ? durationMinutes : 60`
(an absent or non-numeric argument is `none`). -/
def effDuration (durationMinutes : Option Int) : Int :=
  match durationMinutes with
  | some d => if 0 < d then d else 60
  | none => 60

/-- Embedding of `setSnoozeMode(db, senderNumber, durationMinutes = 60,
{manual = false, reason = null})`.  `durationMinutes = none` models an absent
or non-numeric argument (the `typeof durationMinutes === "number"` test
fails); `now` is the write-time clock, which also stands for the
server-assigned `createdAt`/`updatedAt` timestamps. -/
def setSnoozeMode (s : Store) (senderNumber : String) (durationMinutes : Option Int)
    (manual : Bool) (reason : Option String) (now : Int) : Store :=
  let effectiveDuration : Option Int :=
    if manual then none else some (effDuration durationMinutes)
  let expiresAtValue : Option Int :=
    match effectiveDuration with
    | some d => some (now + d * 60 * 1000)
    | none => none
  let payload : SnoozeDoc :=
    { manual := manual
    , durationMinutes := effectiveDuration
    , expiresAt := if manual then none else expiresAtValue
    , reason := jsStringOrNull reason
    , createdAt := some now
    , updatedAt := some now }
  setDoc s senderNumber payload

/-- Embedding of `clearSnoozeMode(db, senderNumber)`: unconditional delete of
the document; deleting an absent document is not an error. -/
def clearSnoozeMode (s : Store) (senderNumber : String) : Store :=
  eraseDoc s senderNumber

/-- Result of a `getSnoozeInfo` call: the returned info, the store after the
call, and whether the opportunistic cleanup delete was issued. -/
structure SnoozeReadResult where
  info : SnoozeInfo
  store : Store
  deleteAttempted : Bool
deriving DecidableEq, Repr

/-- Embedding of `getSnoozeInfo(db, senderNumber, {cleanExpired = false})` at
clock instant `now`.  `cleanupDeleteSucceeds` models the environment of the
best-effort cleanup `docRef.delete().catch(() => undefined)`: when the delete
rejects, the store is unchanged and the call still returns normally. -/
def getSnoozeInfo (s : Store) (senderNumber : String) (cleanExpired : Bool)
    (now : Int) (cleanupDeleteSucceeds : Bool) : SnoozeReadResult :=
  match lookupDoc s senderNumber with
  | none =>
    { info := { active := false, manual := false, durationMinutes := none
              , expiresAt := none, reason := none, createdAt := none, updatedAt := none }
    , store := s
    , deleteAttempted := false }
  | some data =>
    let mkInfo (active : Bool) : SnoozeInfo :=
      { active := active
      , manual := data.manual
      , durationMinutes := data.durationMinutes
      , expiresAt := data.expiresAt
      , reason := jsStringOrNull data.reason
      , createdAt := data.createdAt
      , updatedAt := data.updatedAt }
    if data.manual then
      { info := mkInfo true, store := s, deleteAttempted := false }
    else
      match data.expiresAt with
      | some e =>
        if now < e then
          { info := mkInfo true, store := s, deleteAttempted := false }
        else
          { info := mkInfo false
          , store := if cleanExpired && cleanupDeleteSucceeds then eraseDoc s senderNumber else s
          , deleteAttempted := cleanExpired }
      | none =>
        { info := mkInfo false
        , store := if cleanExpired && cleanupDeleteSucceeds then eraseDoc s senderNumber else s
        , deleteAttempted := cleanExpired }

/-! ## Admin mutation gateway: the ai-state POST handler
(src/app/api/conversations/route.ts, second segment) -/

/-- JS `rawNumber.replace(/[^0-9]/g, '')`: keep the ASCII digits. -/
def digitsOnly (s : String) : String :=
  ⟨s.data.filter Char.isDigit⟩

/-- Embedding of the ai-state `POST` handler body after its two type checks
(`enabled` must be a boolean, `rawNumber` a non-empty route segment).
`durationMinutes = none` models an absent or non-numeric body field, `reason`
a string-or-absent body field.  Returns `none` on the digits-only validation
failure (the 400 response), otherwise the fresh status read and the store
after the mutation. -/
def setAiState (s : Store) (rawNumber : String) (enabled : Bool)
    (durationMinutes : Option Int) (reason : Option String) (now : Int) :
    Option (SnoozeInfo × Store) :=
  let numeric := digitsOnly rawNumber
  if numeric = "" then none
  else
    let senderNumber := normalizeSenderNumber numeric
    let s2 : Store :=
      if enabled then
        clearSnoozeMode s senderNumber
      else
        let hasDuration : Bool :=
          match durationMinutes with
          | some d => 0 < d
          | none => false
        let manual := !hasDuration
        let effectiveDuration : Option Int :=
          if hasDuration then durationMinutes else some 60
        let effectiveReason : String :=
          jsStringOr reason (if manual then "manual-toggle" else "timed-toggle")
        setSnoozeMode s senderNumber effectiveDuration manual (some effectiveReason) now
    some ((getSnoozeInfo s2 senderNumber false now true).info, s2)

/-! ## Conversation aggregator: the conversations GET handler
(src/app/api/conversations/route.ts, first segment) -/

/-- A joined conversation summary, restricted to the fields the sorting and
truncation step inspects.  `updatedAt` is the serialized timestamp: `some t`
stands for the ISO string whose `Date.parse` is `t`, `none` for `null`. -/
structure ConvSummary where
  id : String
  updatedAt : Option Int
deriving DecidableEq, Repr

/-- The comparator key: `a.updatedAt ? Date.parse(a.updatedAt) : 0`. -/
def convSortKey (c : ConvSummary) : Int :=
  match c.updatedAt with
  | some t => t
  | none => 0

/-- The comparator `(a, b) => timeB - timeA` as an order relation: `a` may
come before `b` when the key of `a` is at least the key of `b`. -/
def convDescRel (a b : ConvSummary) : Prop :=
  convSortKey b ≤ convSortKey a

instance : DecidableRel convDescRel :=
  fun a b => inferInstanceAs (Decidable (convSortKey b ≤ convSortKey a))

/-- The `conversations.sort((a, b) => timeB - timeA)` step: JS
`Array.prototype.sort` with a consistent comparator is a stable sort,
modelled as a stable insertion sort descending on `convSortKey`. -/
def sortConversations (l : List ConvSummary) : List ConvSummary :=
  List.insertionSort convDescRel l

/-- The `limit` resolution of the handler: `parseInt` result (or `none` when
the parameter is absent or `NaN`), falling back to 100 unless finite and
positive. -/
def resolveListLimit (limitParam : Option Int) : Nat :=
  match limitParam with
  | some v => if 0 < v then v.toNat else 100
  | none => 100

/-- The sort-then-truncate tail of the conversations `GET` handler
(`conversations.sort(...)` followed by `conversations.slice(0, limit)`). -/
def listConversations (l : List ConvSummary) (limitParam : Option Int) : List ConvSummary :=
  (sortConversations l).take (resolveListLimit limitParam)

/-! ## History reader: the conversation-history GET handler
(src/app/api/conversation-history/[number]/route.ts) -/

/-- A Firestore `Timestamp` as its `{seconds, nanoseconds}` components. -/
structure FireTs where
  seconds : Int
  nanoseconds : Int
deriving DecidableEq, Repr

/-- A stored message document, restricted to the fields the handler reads.
`text`/`sender` are `some` when the field is a string (possibly empty);
`timestamp` is `some` when the field is a Firestore `Timestamp`. -/
structure MessageDoc where
  text : Option String
  sender : Option String
  timestamp : Option FireTs
deriving DecidableEq, Repr

/-- A serialized message of the response: `{text, sender, timestamp}` with
`timestamp` the `{seconds, nanoseconds}` pair or `null`. -/
structure MessageOut where
  text : String
  sender : String
  timestamp : Option FireTs
deriving DecidableEq, Repr

/-- Embedding of `serializeTimestamp`: `null` for an absent timestamp, else
the `{seconds, nanoseconds}` pair. -/
def serializeTimestamp (t : Option FireTs) : Option FireTs :=
  match t with
  | none => none
  | some ts => some { seconds := ts.seconds, nanoseconds := ts.nanoseconds }

/-- The per-document mapping of the handler:
`{text: data.text || '', sender: data.sender || 'user', timestamp: serializeTimestamp(data.timestamp)}`. -/
def serializeMessage (d : MessageDoc) : MessageOut :=
  { text := jsStringOr d.text ""
  , sender := jsStringOr d.sender "user"
  , timestamp := serializeTimestamp d.timestamp }

/-- Firestore orders `Timestamp` values by seconds, then nanoseconds. -/
def tsKey (m : MessageDoc) : Int × Int :=
  match m.timestamp with
  | some t => (t.seconds, t.nanoseconds)
  | none => (0, 0)

/-- Lexicographic order on timestamp keys. -/
def pairLe (p q : Int × Int) : Bool :=
  decide (p.1 < q.1) || (decide (p.1 = q.1) && decide (p.2 ≤ q.2))

/-- Newest-first order on message documents. -/
def msgDescRel (a b : MessageDoc) : Prop :=
  pairLe (tsKey b) (tsKey a) = true

instance : DecidableRel msgDescRel :=
  fun a b => inferInstanceAs (Decidable (pairLe (tsKey b) (tsKey a) = true))

/-- Model of the store query
`messagesRef.orderBy('timestamp', 'desc').limit(limit).get()` (collaborator
interface): documents missing the ordered field are excluded, the rest are
sorted newest-first, and at most `limit` are returned. -/
def queryMessagesDesc (msgs : List MessageDoc) (limit : Nat) : List MessageDoc :=
  (List.insertionSort msgDescRel (msgs.filter (fun m => m.timestamp.isSome))).take limit

/-- The timestamp key of a serialized message. -/
def msgOutKey (m : MessageOut) : Int × Int :=
  match m.timestamp with
  | some t => (t.seconds, t.nanoseconds)
  | none => (0, 0)

/-- The conversation-history `GET` pipeline on the message sub-collection:
fetch newest-first with a limit, serialize each document, then
`history.reverse()` into chronological order. -/
def conversationHistory (msgs : List MessageDoc) (limit : Nat) : List MessageOut :=
  ((queryMessagesDesc msgs limit).map serializeMessage).reverse

/-- The `limit` resolution of the history handler: fallback 200 unless the
parsed parameter is finite and positive. -/
def resolveHistoryLimit (limitParam : Option Int) : Nat :=
  match limitParam with
  | some v => if 0 < v then v.toNat else 200
  | none => 200

/-! ## Concrete sample data for witnesses -/

/-- A concrete non-manual record, expired at any instant from 5000 on. -/
def sampleTimedDoc : SnoozeDoc :=
  { manual := false, durationMinutes := some 30, expiresAt := some 5000
  , reason := some "admin-ui-toggle", createdAt := some 0, updatedAt := some 0 }

/-- A one-record store holding the timed record. -/
def sampleStore : Store := [("628@c.us", sampleTimedDoc)]

/-! ## Store helper lemmas -/

theorem lookupDoc_eraseDoc_self (s : Store) (k : String) :
    lookupDoc (eraseDoc s k) k = none := by
  induction s with
  | nil => rfl
  | cons hd tl ih =>
    obtain ⟨k2, d⟩ := hd
    by_cases h : k2 = k
    · simpa [eraseDoc, h] using ih
    · simpa [eraseDoc, lookupDoc, h] using ih

theorem lookupDoc_setDoc_self (s : Store) (k : String) (d : SnoozeDoc) :
    lookupDoc (setDoc s k d) k = some d := by
  simp [setDoc, lookupDoc]

/-- The snooze info produced by `getSnoozeInfo` on a stored document, as a
function of the computed `active` flag. -/
def infoOf (data : SnoozeDoc) (active : Bool) : SnoozeInfo :=
  { active := active
  , manual := data.manual
  , durationMinutes := data.durationMinutes
  , expiresAt := data.expiresAt
  , reason := jsStringOrNull data.reason
  , createdAt := data.createdAt
  , updatedAt := data.updatedAt }

/-- Case analysis of `getSnoozeInfo` on a store that holds a document. -/
theorem getSnoozeInfo_of_lookup (s : Store) (k : String) (data : SnoozeDoc)
    (clean : Bool) (now : Int) (ok : Bool)
    (h : lookupDoc s k = some data) :
    getSnoozeInfo s k clean now ok =
      (if data.manual then
        { info := infoOf data true, store := s, deleteAttempted := false }
      else
        match data.expiresAt with
        | some e =>
          if now < e then
            { info := infoOf data true, store := s, deleteAttempted := false }
          else
            { info := infoOf data false
            , store := if clean && ok then eraseDoc s k else s
            , deleteAttempted := clean }
        | none =>
          { info := infoOf data false
          , store := if clean && ok then eraseDoc s k else s
          , deleteAttempted := clean }) := by
  unfold getSnoozeInfo
  rw [h]
  rfl

theorem effDuration_pos (dm : Option Int) : 0 < effDuration dm := by
  cases dm with
  | none => decide
  | some d =>
    show 0 < if 0 < d then d else 60
    split <;> omega

/-! ## Claim theorems -/

/-- C1: for every conversation key with a stored snooze record, the status
read reports `active = manual OR (expiresAt exists AND expiresAt > now)`; in
particular a record with `manual = false` whose `expiresAt` is absent or at or
before `now` reads as inactive, with no intervening write to the record. -/
theorem snooze_status_active_law (s : Store) (k : String) (data : SnoozeDoc)
    (clean : Bool) (now : Int) (ok : Bool)
    (h : lookupDoc s k = some data) :
    (getSnoozeInfo s k clean now ok).info.active
      = (data.manual || (match data.expiresAt with
          | some e => decide (now < e)
          | none => false))
    ∧ (data.manual = false → (∀ e, data.expiresAt = some e → e ≤ now) →
        (getSnoozeInfo s k clean now ok).info.active = false) := by
  rw [getSnoozeInfo_of_lookup s k data clean now ok h]
  cases hm : data.manual with
  | true => simp [infoOf]
  | false =>
    cases he : data.expiresAt with
    | none => simp [infoOf]
    | some e =>
      by_cases hlt : now < e
      · refine ⟨by simp [infoOf, hlt], ?_⟩
        intro _ h2
        exact absurd (h2 e rfl) (by omega)
      · simp [infoOf, hlt]

/-- Witness for the C1 theorem: a stored timed record that expired at instant
5000 reads as inactive at instant 9000. -/
theorem snooze_status_active_law_witness :
    lookupDoc sampleStore "628@c.us" = some sampleTimedDoc
    ∧ (getSnoozeInfo sampleStore "628@c.us" false 9000 true).info.active = false := by
  refine ⟨by decide, ?_⟩
  have h := snooze_status_active_law sampleStore "628@c.us" sampleTimedDoc
    false 9000 true (by decide)
  rw [h.1]
  decide

/-- C2: postcondition of `setSnoozeMode`.  With `manual = true` the persisted
record has null `expiresAt` and null `durationMinutes` and an immediately
following status read reports `active = true` and `expiresAt = null`,
regardless of the `durationMinutes` argument (and of the clock of the read).
With `manual = false` the persisted `durationMinutes` is the clamp
`effDuration` of the argument (the argument itself when a number greater than
0, else 60), `expiresAt` is the write-time clock plus that many minutes in
milliseconds, and an immediately following status read reports `active = true`
with that `durationMinutes`. -/
theorem setSnoozeMode_post (s : Store) (k : String) (dm : Option Int)
    (r : Option String) (now now2 : Int) (clean ok : Bool) :
    (lookupDoc (setSnoozeMode s k dm true r now) k
        = some { manual := true, durationMinutes := none, expiresAt := none
               , reason := jsStringOrNull r, createdAt := some now, updatedAt := some now }
      ∧ (getSnoozeInfo (setSnoozeMode s k dm true r now) k clean now2 ok).info.active = true
      ∧ (getSnoozeInfo (setSnoozeMode s k dm true r now) k clean now2 ok).info.expiresAt = none)
    ∧ (lookupDoc (setSnoozeMode s k dm false r now) k
        = some { manual := false, durationMinutes := some (effDuration dm)
               , expiresAt := some (now + effDuration dm * 60 * 1000)
               , reason := jsStringOrNull r, createdAt := some now, updatedAt := some now }
      ∧ (getSnoozeInfo (setSnoozeMode s k dm false r now) k clean now ok).info.active = true
      ∧ (getSnoozeInfo (setSnoozeMode s k dm false r now) k clean now ok).info.durationMinutes
          = some (effDuration dm))
    ∧ (∀ d : Int, dm = some d → 0 < d → effDuration dm = d)
    ∧ (dm = none → effDuration dm = 60)
    ∧ (∀ d : Int, dm = some d → d ≤ 0 → effDuration dm = 60) := by
  have hm : lookupDoc (setSnoozeMode s k dm true r now) k
      = some { manual := true, durationMinutes := none, expiresAt := none
             , reason := jsStringOrNull r, createdAt := some now, updatedAt := some now } := by
    simpa [setSnoozeMode] using
      lookupDoc_setDoc_self s k _
  have ht : lookupDoc (setSnoozeMode s k dm false r now) k
      = some { manual := false, durationMinutes := some (effDuration dm)
             , expiresAt := some (now + effDuration dm * 60 * 1000)
             , reason := jsStringOrNull r, createdAt := some now, updatedAt := some now } := by
    simpa [setSnoozeMode] using
      lookupDoc_setDoc_self s k _
  refine ⟨⟨hm, ?_, ?_⟩, ⟨ht, ?_, ?_⟩, ?_, ?_, ?_⟩
  · rw [getSnoozeInfo_of_lookup _ _ _ clean now2 ok hm]
    simp [infoOf]
  · rw [getSnoozeInfo_of_lookup _ _ _ clean now2 ok hm]
    simp [infoOf]
  · rw [getSnoozeInfo_of_lookup _ _ _ clean now ok ht]
    have hpos : 0 < effDuration dm := effDuration_pos dm
    have hlt : now < now + effDuration dm * 60 * 1000 := by omega
    simp [infoOf, hlt]
  · rw [getSnoozeInfo_of_lookup _ _ _ clean now ok ht]
    have hpos : 0 < effDuration dm := effDuration_pos dm
    have hlt : now < now + effDuration dm * 60 * 1000 := by omega
    simp [infoOf, hlt]
  · intro d hd hpos
    simp [effDuration, hd, hpos]
  · intro hd
    simp [effDuration, hd]
  · intro d hd hnp
    have : ¬ 0 < d := by omega
    simp [effDuration, hd, this]

/-- Witness for the C2 theorem at a concrete store, key, duration and clock. -/
theorem setSnoozeMode_post_witness :
    lookupDoc (setSnoozeMode [] "628@c.us" (some 45) false none 1000) "628@c.us"
      = some { manual := false, durationMinutes := some 45
             , expiresAt := some (1000 + 45 * 60 * 1000)
             , reason := none, createdAt := some 1000, updatedAt := some 1000 }
    ∧ effDuration (some 45) = 45 := by
  have h := setSnoozeMode_post [] "628@c.us" (some 45) none 1000 1000 false true
  refine ⟨?_, h.2.2.1 45 rfl (by decide)⟩
  have := h.2.1.1
  simpa [effDuration] using this

/-- C3: on a stored record with `manual = false` whose computed `active` is
false, a status read with `cleanExpired = true` issues a delete of the record;
a failure of that delete is discarded (the call still returns the same info,
with `active = false`, and the store is unchanged); with
`cleanExpired = false` the record stays present while `active = false` is
still reported; and `cleanExpired` never deletes a record with
`manual = true`. -/
theorem snooze_cleanExpired_law (s : Store) (k : String) (data : SnoozeDoc)
    (now : Int) (ok : Bool)
    (h : lookupDoc s k = some data) :
    (data.manual = false → (∀ e, data.expiresAt = some e → e ≤ now) →
       (getSnoozeInfo s k true now ok).deleteAttempted = true
       ∧ (getSnoozeInfo s k true now true).store = eraseDoc s k
       ∧ lookupDoc (getSnoozeInfo s k true now true).store k = none
       ∧ (getSnoozeInfo s k true now false).store = s
       ∧ (getSnoozeInfo s k true now false).info = (getSnoozeInfo s k true now true).info
       ∧ (getSnoozeInfo s k true now ok).info.active = false
       ∧ (getSnoozeInfo s k false now ok).store = s
       ∧ lookupDoc (getSnoozeInfo s k false now ok).store k = some data
       ∧ (getSnoozeInfo s k false now ok).info.active = false)
    ∧ (data.manual = true →
        (getSnoozeInfo s k true now ok).deleteAttempted = false
        ∧ (getSnoozeInfo s k true now ok).store = s) := by
  have h1 := getSnoozeInfo_of_lookup s k data true now ok h
  have h2 := getSnoozeInfo_of_lookup s k data true now true h
  have h3 := getSnoozeInfo_of_lookup s k data true now false h
  have h4 := getSnoozeInfo_of_lookup s k data false now ok h
  constructor
  · intro hman hexp
    rw [h1, h2, h3, h4]
    cases he : data.expiresAt with
    | none =>
      simp [hman, infoOf, lookupDoc_eraseDoc_self, h]
    | some e =>
      have hle : ¬ now < e := by
        have := hexp e he
        omega
      simp [hman, he, hle, infoOf, lookupDoc_eraseDoc_self, h]
  · intro hman
    rw [h1]
    simp [hman]

/-- Witness for the C3 theorem: cleaning the expired sample record deletes it
when the delete succeeds and leaves the store unchanged when it fails, while
both reads report inactive. -/
theorem snooze_cleanExpired_law_witness :
    (getSnoozeInfo sampleStore "628@c.us" true 9000 true).store = []
    ∧ (getSnoozeInfo sampleStore "628@c.us" true 9000 false).store = sampleStore
    ∧ (getSnoozeInfo sampleStore "628@c.us" true 9000 false).info.active = false := by
  have h := (snooze_cleanExpired_law sampleStore "628@c.us" sampleTimedDoc
    9000 false (by decide)).1 (by decide)
    (by
      intro e he
      rw [show sampleTimedDoc.expiresAt = some 5000 from rfl] at he
      cases he
      omega)
  refine ⟨?_, h.2.2.2.1, ?_⟩
  · rw [h.2.1]
    decide
  · exact h.2.2.2.2.2.1

/-- C4: for a key with no stored record, the status read returns the
never-snoozed shape (`active = false`, `manual = false`, every other field
null and present) and leaves the store untouched; `clearSnoozeMode`
unconditionally deletes the record (a no-op failure-free call when none
exists), so a status read after it always yields exactly that shape. -/
theorem snooze_never_snoozed_shape (s : Store) (k : String) (clean : Bool)
    (now : Int) (ok : Bool) :
    (lookupDoc s k = none →
      getSnoozeInfo s k clean now ok
        = { info := { active := false, manual := false, durationMinutes := none
                    , expiresAt := none, reason := none, createdAt := none
                    , updatedAt := none }
          , store := s, deleteAttempted := false })
    ∧ lookupDoc (clearSnoozeMode s k) k = none
    ∧ (getSnoozeInfo (clearSnoozeMode s k) k clean now ok).info
        = { active := false, manual := false, durationMinutes := none
          , expiresAt := none, reason := none, createdAt := none
          , updatedAt := none } := by
  have he : lookupDoc (clearSnoozeMode s k) k = none := lookupDoc_eraseDoc_self s k
  refine ⟨?_, he, ?_⟩
  · intro h
    unfold getSnoozeInfo
    rw [h]
  · unfold getSnoozeInfo
    rw [he]

/-- Witness for the C4 theorem: deleting the only record of the sample store
and reading back yields the never-snoozed shape. -/
theorem snooze_never_snoozed_shape_witness :
    getSnoozeInfo [] "628@c.us" false 0 true
      = { info := { active := false, manual := false, durationMinutes := none
                  , expiresAt := none, reason := none, createdAt := none
                  , updatedAt := none }
        , store := [], deleteAttempted := false }
    ∧ (getSnoozeInfo (clearSnoozeMode sampleStore "628@c.us") "628@c.us" false 0 true).info
        = { active := false, manual := false, durationMinutes := none
          , expiresAt := none, reason := none, createdAt := none
          , updatedAt := none } :=
  ⟨(snooze_never_snoozed_shape [] "628@c.us" false 0 true).1 rfl,
   (snooze_never_snoozed_shape sampleStore "628@c.us" false 0 true).2.2⟩

theorem jsStringOrNull_of_ne (r : Option String) (dflt : String) (h : dflt ≠ "") :
    jsStringOrNull (some (jsStringOr r dflt)) = some (jsStringOr r dflt) := by
  cases r with
  | none => simp [jsStringOr, jsStringOrNull, h]
  | some str =>
    by_cases hs : str = ""
    · simp [jsStringOr, jsStringOrNull, hs, h]
    · simp [jsStringOr, jsStringOrNull, hs]

/-- C5: the ai-state POST handler.  With `enabled = true` it deletes the
snooze record of the normalized key (also when none existed).  With
`enabled = false` and a positive numeric `durationMinutes = d` it activates a
timed snooze (`manual = false`, stored `durationMinutes = d`, reason
defaulting to `timed-toggle`); with `durationMinutes` absent, non-numeric or
not positive it activates a manual snooze (reason defaulting to
`manual-toggle`).  In every case the response is the status read performed
after the mutation. -/
theorem setAiState_behavior (s : Store) (raw : String) (dm : Option Int)
    (r : Option String) (now : Int)
    (h : digitsOnly raw ≠ "") :
    let key := normalizeSenderNumber (digitsOnly raw)
    (setAiState s raw true dm r now
        = some ((getSnoozeInfo (clearSnoozeMode s key) key false now true).info,
                clearSnoozeMode s key)
      ∧ lookupDoc (clearSnoozeMode s key) key = none)
    ∧ (∀ d : Int, dm = some d → 0 < d →
        setAiState s raw false dm r now
          = some ((getSnoozeInfo
                    (setSnoozeMode s key dm false (some (jsStringOr r "timed-toggle")) now)
                    key false now true).info,
                  setSnoozeMode s key dm false (some (jsStringOr r "timed-toggle")) now)
        ∧ lookupDoc (setSnoozeMode s key dm false (some (jsStringOr r "timed-toggle")) now) key
            = some { manual := false, durationMinutes := some d
                   , expiresAt := some (now + d * 60 * 1000)
                   , reason := some (jsStringOr r "timed-toggle")
                   , createdAt := some now, updatedAt := some now })
    ∧ ((∀ d : Int, dm = some d → d ≤ 0) →
        setAiState s raw false dm r now
          = some ((getSnoozeInfo
                    (setSnoozeMode s key (some 60) true (some (jsStringOr r "manual-toggle")) now)
                    key false now true).info,
                  setSnoozeMode s key (some 60) true (some (jsStringOr r "manual-toggle")) now)
        ∧ lookupDoc
            (setSnoozeMode s key (some 60) true (some (jsStringOr r "manual-toggle")) now) key
            = some { manual := true, durationMinutes := none, expiresAt := none
                   , reason := some (jsStringOr r "manual-toggle")
                   , createdAt := some now, updatedAt := some now })
    ∧ (r = none → jsStringOr r "timed-toggle" = "timed-toggle"
        ∧ jsStringOr r "manual-toggle" = "manual-toggle") := by
  intro key
  refine ⟨⟨?_, lookupDoc_eraseDoc_self s key⟩, ?_, ?_, ?_⟩
  · simp [setAiState, h]
  · intro d hd hpos
    subst hd
    constructor
    · simp [setAiState, h, hpos]
    · have hl := lookupDoc_setDoc_self s key
        { manual := false, durationMinutes := some (effDuration (some d))
        , expiresAt := some (now + effDuration (some d) * 60 * 1000)
        , reason := jsStringOrNull (some (jsStringOr r "timed-toggle"))
        , createdAt := some now, updatedAt := some now }
      have heff : effDuration (some d) = d := by
        simp [effDuration, hpos]
      rw [show setSnoozeMode s key (some d) false (some (jsStringOr r "timed-toggle")) now
            = setDoc s key
                { manual := false, durationMinutes := some (effDuration (some d))
                , expiresAt := some (now + effDuration (some d) * 60 * 1000)
                , reason := jsStringOrNull (some (jsStringOr r "timed-toggle"))
                , createdAt := some now, updatedAt := some now } from rfl]
      rw [hl, heff, jsStringOrNull_of_ne r "timed-toggle" (by decide)]
  · intro hnp
    have hrec : lookupDoc
        (setSnoozeMode s key (some 60) true (some (jsStringOr r "manual-toggle")) now) key
        = some { manual := true, durationMinutes := none, expiresAt := none
               , reason := some (jsStringOr r "manual-toggle")
               , createdAt := some now, updatedAt := some now } := by
      have hl := lookupDoc_setDoc_self s key
        { manual := true, durationMinutes := none, expiresAt := none
        , reason := jsStringOrNull (some (jsStringOr r "manual-toggle"))
        , createdAt := some now, updatedAt := some now }
      rw [show setSnoozeMode s key (some 60) true (some (jsStringOr r "manual-toggle")) now
            = setDoc s key
                { manual := true, durationMinutes := none, expiresAt := none
                , reason := jsStringOrNull (some (jsStringOr r "manual-toggle"))
                , createdAt := some now, updatedAt := some now } from rfl]
      rw [hl, jsStringOrNull_of_ne r "manual-toggle" (by decide)]
    cases hdm : dm with
    | none => exact ⟨by simp [setAiState, h], hrec⟩
    | some d =>
      have hdec : decide (0 < d) = false := by
        have := hnp d hdm
        simp
        omega
      exact ⟨by simp [setAiState, h, hdec], hrec⟩
  · intro hr
    subst hr
    exact ⟨rfl, rfl⟩

/-- Witness for the C5 theorem: disabling the AI for raw number `6-2-8` with
a 45 minute duration performs a timed activation under the normalized key and
returns the fresh status read. -/
theorem setAiState_behavior_witness :
    setAiState [] "6-2-8" false (some 45) none 0
      = some ((getSnoozeInfo
                (setSnoozeMode [] (normalizeSenderNumber (digitsOnly "6-2-8"))
                  (some 45) false (some (jsStringOr none "timed-toggle")) 0)
                (normalizeSenderNumber (digitsOnly "6-2-8")) false 0 true).info,
              setSnoozeMode [] (normalizeSenderNumber (digitsOnly "6-2-8"))
                (some 45) false (some (jsStringOr none "timed-toggle")) 0) :=
  ((setAiState_behavior [] "6-2-8" (some 45) none 0 (by decide)).2.1
    45 rfl (by decide)).1

/-- C6 counterexample: on the input `abc:` (a base string containing `:` with
nothing after the colon) the returned platform id is the present empty
string, not the absent value the claim states. -/
theorem parseSenderIdentity_empty_remainder_counterexample :
    (parseSenderIdentity (some "abc:")).platformId = some ""
    ∧ (parseSenderIdentity (some "abc:")).platformId ≠ none := by
  constructor
  · decide
  · decide

/-- C6 amended: for every input whose trimmed form is nonempty, carries no
whatsapp suffix, contains a `:`, and splits as a channel part followed by one
empty remainder component, the returned platform id is the empty string — a
present value, never the absent one. -/
theorem parseSenderIdentity_empty_remainder (s cp : String)
    (h1 : jsTrim s = s) (h2 : s ≠ "")
    (h3 : jsEndsWith s WHATSAPP_SUFFIX = false)
    (h4 : jsContainsChar s ':' = true)
    (h5 : jsSplitChar s ':' = [cp, ""]) :
    (parseSenderIdentity (some s)).platformId = some ""
    ∧ (parseSenderIdentity (some s)).platformId ≠ none := by
  have : (parseSenderIdentity (some s)).platformId = some "" := by
    unfold parseSenderIdentity
    simp only [Option.getD, h1, h2, if_neg h2, h3, h4, h5, if_false, Bool.false_eq_true,
      if_true]
    rfl
  exact ⟨this, by rw [this]; exact Option.some_ne_none ""⟩

/-- Witness for the amended C6 theorem at the input `abc:`. -/
theorem parseSenderIdentity_empty_remainder_witness :
    (parseSenderIdentity (some "abc:")).platformId = some "" :=
  (parseSenderIdentity_empty_remainder "abc:" "abc"
    (by decide) (by decide) (by decide) (by decide) (by decide)).1

/-- C7: the three specified examples of identity resolution, and the general
rule that `normalizedAddress` is the base string (`docId`) plus the canonical
suffix for the whatsapp channel and the base string unchanged for every other
channel. -/
theorem parseSenderIdentity_examples :
    parseSenderIdentity (some "6281234@c.us")
      = { docId := "6281234", channel := "whatsapp", platformId := some "6281234"
        , normalizedAddress := "6281234@c.us" }
    ∧ parseSenderIdentity (some "instagram:abc123")
      = { docId := "instagram:abc123", channel := "instagram", platformId := some "abc123"
        , normalizedAddress := "instagram:abc123" }
    ∧ parseSenderIdentity (some "")
      = { docId := "", channel := "unknown", platformId := none, normalizedAddress := "" }
    ∧ (∀ raw : Option String,
        (parseSenderIdentity raw).normalizedAddress
          = (if (parseSenderIdentity raw).channel = "whatsapp"
             then (parseSenderIdentity raw).docId ++ WHATSAPP_SUFFIX
             else (parseSenderIdentity raw).docId)) := by
  refine ⟨by decide, by decide, by decide, ?_⟩
  intro raw
  by_cases h0 : jsTrim (raw.getD "") = ""
  · simp only [parseSenderIdentity, if_pos h0]
    decide
  · simp only [parseSenderIdentity, if_neg h0]

/-- C10 counterexample: `normalizeSenderNumber` is not idempotent.  Stripping
the whatsapp suffix of `ig:a @c.us` exposes a trailing space, so one
application yields `ig:a ` while a second application trims it to `ig:a`. -/
theorem normalizeSenderNumber_not_idempotent :
    normalizeSenderNumber (normalizeSenderNumber "ig:a @c.us")
      ≠ normalizeSenderNumber "ig:a @c.us"
    ∧ normalizeSenderNumber "ig:a @c.us" = "ig:a "
    ∧ normalizeSenderNumber "ig:a " = "ig:a" :=
  ⟨by decide, by decide, by decide⟩

/-- C10 amended: every trimmed nonempty whatsapp-form address (canonical
suffix present, colon-free base) is a fixed point of `normalizeSenderNumber`,
so the function is idempotent at every input it maps into this family — in
particular at the digits-only keys the snooze routes build — though not at
every string. -/
theorem normalizeSenderNumber_fixpoint (n : String)
    (h1 : jsTrim n = n) (h2 : n ≠ "")
    (h3 : jsEndsWith n WHATSAPP_SUFFIX = true)
    (h4 : jsDropRight n WHATSAPP_SUFFIX.length ++ WHATSAPP_SUFFIX = n)
    (h5 : jsContainsChar (jsDropRight n WHATSAPP_SUFFIX.length) ':' = false) :
    normalizeSenderNumber n = n
    ∧ (∀ x : String, normalizeSenderNumber x = n →
        normalizeSenderNumber (normalizeSenderNumber x) = normalizeSenderNumber x) := by
  have hfix : normalizeSenderNumber n = n := by
    unfold normalizeSenderNumber parseSenderIdentity
    simp only [Option.getD, h1, if_neg h2, h3, if_true, h5, Bool.false_eq_true, if_false]
    simp only [h4, if_neg h2]
  refine ⟨hfix, ?_⟩
  intro x hx
  rw [hx, hfix]

/-- Witness for the amended C10 theorem at the normalized form of a
digits-only key. -/
theorem normalizeSenderNumber_fixpoint_witness :
    normalizeSenderNumber "628@c.us" = "628@c.us" :=
  (normalizeSenderNumber_fixpoint "628@c.us"
    (by decide) (by decide) (by decide) (by decide) (by decide)).1

theorem pairLe_trans (p q r : Int × Int) (h1 : pairLe p q = true) (h2 : pairLe q r = true) :
    pairLe p r = true := by
  simp only [pairLe, Bool.or_eq_true, Bool.and_eq_true, decide_eq_true_eq] at h1 h2 ⊢
  omega

theorem pairLe_total (p q : Int × Int) : pairLe p q = true ∨ pairLe q p = true := by
  simp only [pairLe, Bool.or_eq_true, Bool.and_eq_true, decide_eq_true_eq]
  omega

theorem msgOutKey_serialize (d : MessageDoc) : msgOutKey (serializeMessage d) = tsKey d := by
  cases ht : d.timestamp with
  | none => simp [msgOutKey, serializeMessage, serializeTimestamp, tsKey, ht]
  | some t => simp [msgOutKey, serializeMessage, serializeTimestamp, tsKey, ht]

/-- C8 counterexample: a conversation with a pre-epoch `updatedAt` (negative
parse value) sorts below a conversation with a missing `updatedAt` (key 0), so
the missing one does not sort last as claimed. -/
theorem listConversations_counterexample :
    listConversations
        [ { id := "a", updatedAt := some (-1000) }, { id := "b", updatedAt := none } ] none
      = [ { id := "b", updatedAt := none }, { id := "a", updatedAt := some (-1000) } ]
    ∧ ({ id := "b", updatedAt := none } : ConvSummary).updatedAt = none :=
  ⟨by decide, rfl⟩

/-- C8 amended: the conversations GET handler sorts the joined summaries by
`updatedAt` descending, treating a missing `updatedAt` as epoch zero — hence a
missing one sorts after every conversation with a positive (post-epoch) key,
though before pre-epoch ones — and truncates to the limit (default 100) only
after sorting: the output is a prefix of the full sorted permutation of the
input. -/
theorem listConversations_sorted (l : List ConvSummary) (p : Option Int) :
    List.Pairwise (fun a b => convSortKey b ≤ convSortKey a) (listConversations l p)
    ∧ (sortConversations l).Perm l
    ∧ (listConversations l p).Sublist (sortConversations l)
    ∧ (listConversations l p).length = min (resolveListLimit p) l.length
    ∧ List.Pairwise (fun a b => a.updatedAt = none → convSortKey b ≤ 0) (listConversations l p)
    ∧ (∀ c : ConvSummary, c.updatedAt = none → convSortKey c = 0) := by
  have hperm : (sortConversations l).Perm l := List.perm_insertionSort convDescRel l
  have hs : List.Pairwise convDescRel (sortConversations l) :=
    @List.sorted_insertionSort _ convDescRel _
      (IsTotal.mk (fun a b => Int.le_total (convSortKey b) (convSortKey a)))
      (IsTrans.mk (fun a b c hab hbc => le_trans hbc hab)) l
  have hsub : (listConversations l p).Sublist (sortConversations l) :=
    List.take_sublist _ _
  have hp : List.Pairwise convDescRel (listConversations l p) :=
    List.Pairwise.sublist hsub hs
  refine ⟨hp, hperm, hsub, ?_, ?_, ?_⟩
  · rw [show listConversations l p = (sortConversations l).take (resolveListLimit p) from rfl,
      List.length_take, hperm.length_eq]
  · refine hp.imp ?_
    intro a b h hnone
    have ha : convSortKey a = 0 := by simp [convSortKey, hnone]
    have h2 : convSortKey b ≤ convSortKey a := h
    omega
  · intro c hc
    simp [convSortKey, hc]

/-- Witness for the amended C8 theorem: the epoch-zero key of a summary with
missing `updatedAt`. -/
theorem listConversations_sorted_witness :
    convSortKey { id := "b", updatedAt := none } = 0 :=
  (listConversations_sorted [] none).2.2.2.2.2 { id := "b", updatedAt := none } rfl

/-- C9 counterexample: a message whose stored `sender` field is set to the
empty string is returned with sender `user`, not with the stored sender as
the claim states. -/
theorem conversationHistory_counterexample :
    conversationHistory
        [ { text := some "hi", sender := some ""
          , timestamp := some { seconds := 1, nanoseconds := 0 } } ] 5
      = [ { text := "hi", sender := "user"
          , timestamp := some { seconds := 1, nanoseconds := 0 } } ]
    ∧ ("user" : String) ≠ "" :=
  ⟨by decide, by decide⟩

/-- C9 amended: the history GET pipeline returns at most `limit` messages —
the most recent timestamped ones — in chronological (oldest-first) order,
which is the reverse of the newest-first fetch order; each returned message
carries the stored sender when it is set to a non-empty string and `user` when
the field is absent or empty, and the timestamp serialized to its
`seconds`/`nanoseconds` pair, or null when absent. -/
theorem conversationHistory_behavior (msgs : List MessageDoc) (limit : Nat) :
    (conversationHistory msgs limit).reverse
        = (queryMessagesDesc msgs limit).map serializeMessage
    ∧ List.Pairwise (fun a b => pairLe (tsKey b) (tsKey a) = true) (queryMessagesDesc msgs limit)
    ∧ List.Pairwise (fun a b => pairLe (msgOutKey a) (msgOutKey b) = true)
        (conversationHistory msgs limit)
    ∧ (conversationHistory msgs limit).length
        = min limit (msgs.filter (fun m => m.timestamp.isSome)).length
    ∧ (∀ d : MessageDoc,
        (serializeMessage d).timestamp = d.timestamp
        ∧ ((d.sender = none ∨ d.sender = some "") → (serializeMessage d).sender = "user")
        ∧ (∀ str : String, d.sender = some str → str ≠ "" → (serializeMessage d).sender = str)) := by
  have hsorted : List.Pairwise msgDescRel
      (List.insertionSort msgDescRel (msgs.filter (fun m => m.timestamp.isSome))) :=
    @List.sorted_insertionSort _ msgDescRel _
      (IsTotal.mk (fun a b => pairLe_total (tsKey b) (tsKey a)))
      (IsTrans.mk (fun a b c hab hbc => pairLe_trans _ _ _ hbc hab)) _
  have hfetch : List.Pairwise msgDescRel (queryMessagesDesc msgs limit) :=
    List.Pairwise.sublist (List.take_sublist _ _) hsorted
  refine ⟨List.reverse_reverse _, hfetch, ?_, ?_, ?_⟩
  · rw [show conversationHistory msgs limit
        = ((queryMessagesDesc msgs limit).map serializeMessage).reverse from rfl,
      List.pairwise_reverse, List.pairwise_map]
    refine hfetch.imp ?_
    intro a b h
    rw [msgOutKey_serialize, msgOutKey_serialize]
    exact h
  · rw [show conversationHistory msgs limit
        = ((queryMessagesDesc msgs limit).map serializeMessage).reverse from rfl,
      List.length_reverse, List.length_map,
      show queryMessagesDesc msgs limit
        = (List.insertionSort msgDescRel (msgs.filter (fun m => m.timestamp.isSome))).take limit
        from rfl,
      List.length_take, (List.perm_insertionSort msgDescRel _).length_eq]
  · intro d
    refine ⟨?_, ?_, ?_⟩
    · cases ht : d.timestamp <;> simp [serializeMessage, serializeTimestamp, ht]
    · intro h
      cases h with
      | inl h => simp [serializeMessage, jsStringOr, h]
      | inr h => simp [serializeMessage, jsStringOr, h]
    · intro str hstr hne
      simp [serializeMessage, jsStringOr, hstr, hne]

/-- Witness for the amended C9 theorem: a non-empty stored sender is returned
unchanged. -/
theorem conversationHistory_behavior_witness :
    (serializeMessage { text := some "hi", sender := some "admin"
                      , timestamp := some { seconds := 5, nanoseconds := 7 } }).sender
      = "admin" :=
  ((conversationHistory_behavior [] 0).2.2.2.2
    { text := some "hi", sender := some "admin"
    , timestamp := some { seconds := 5, nanoseconds := 7 } }).2.2 "admin" rfl (by decide)

end AdminUI
